import Mathlib

/-!
Verification of the per-file JS transformer plugin
(`crates/parcel_plugin_transformer_js/src/transformer.rs`).

The file shallowly embeds `ParcelJsTransformerPlugin::transform` and the data
it flows through.  Types and control flow present in the source file are
translated directly; collaborators that the repository only declares or calls
(the SWC engine, the `conversion` module, `Asset::id`, core record types) are
modelled from the specification, each marked `Modelled from the spec:` in its
doc comment.
-/

namespace Parcel

/-- An operating-system path string, as Rust's `Path`/`OsStr`: it either
decodes to valid text or it does not.  `toStr` mirrors `Path::to_str`,
which returns `None` for non-UTF-8 paths (transformer.rs lines 57-60). -/
inductive OsStr
  | utf8 (s : String)
  | nonUtf8
deriving DecidableEq

/-- Mirror of Rust `Path::to_str`: `some` text exactly when the path is
representable as valid UTF-8 text. -/
def OsStr.toStr : OsStr → Option String
  | .utf8 s => some s
  | .nonUtf8 => none

/-- The textual content of a path, used where the source hashes or displays
the path (lossy for non-decodable paths, as `to_string_lossy` is). -/
def OsStr.text : OsStr → String
  | .utf8 s => s
  | .nonUtf8 => ""

/-- A 1-based line/column position (parcel_core `Location`, as used by the
tests at transformer.rs lines 209-216). -/
structure Location where
  line : Nat
  column : Nat
deriving DecidableEq

/-- A span in the original source (parcel_core `SourceLocation`).  The Rust
field `end` is a Lean keyword, hence `end_pos`. -/
structure SourceLocation where
  file_path : String
  start : Location
  end_pos : Location
deriving DecidableEq

/-- A named binding crossing a module boundary (parcel_core `Symbol`).
The Rust field `local` is a Lean keyword, hence `local_name`. -/
structure Symbol where
  exported : String
  local_name : String
  loc : Option SourceLocation
deriving DecidableEq

/-- How a module reference was syntactically expressed (parcel_core
`SpecifierType`; the test uses `SpecifierType::CommonJS`). -/
inductive SpecifierType
  | esm
  | commonJS
  | url
deriving DecidableEq

/-- Language/extension classification of an asset (parcel_core `FileType`;
only `Js` is exercised by the source file). -/
inductive FileType
  | js
  | other
deriving DecidableEq

/-- Modelled from the spec: the target context of the build environment
("target context: browser/node/worker"); the source only queries the three
predicates below (transformer.rs lines 42, 63, 67). -/
inductive EnvContext
  | browser
  | node
  | worker
deriving DecidableEq

/-- Mirror of `env.context.is_node()`. -/
def EnvContext.is_node : EnvContext → Bool
  | .node => true
  | _ => false

/-- Mirror of `env.context.is_browser()`. -/
def EnvContext.is_browser : EnvContext → Bool
  | .browser => true
  | _ => false

/-- Mirror of `env.context.is_worker()`. -/
def EnvContext.is_worker : EnvContext → Bool
  | .worker => true
  | _ => false

/-- Module-vs-script classification; the match at transformer.rs lines 73-76
is exhaustive over exactly these two variants. -/
inductive SourceType
  | module
  | script
deriving DecidableEq

/-- Output format of the build target (only the comparison with `EsModule`
at line 65 is exercised). -/
inductive OutputFormat
  | esmodule
  | commonjs
  | global
deriving DecidableEq

/-- Build mode (only the comparison with `Development` at line 64 is
exercised). -/
inductive BuildMode
  | development
  | production
deriving DecidableEq

/-- Log verbosity (only the comparison with `Verbose` at line 79 is
exercised). -/
inductive LogLevel
  | error
  | warn
  | info
  | verbose
deriving DecidableEq

/-- Modelled from the spec: the engine feature matrix entry queried by the
source (`EnvironmentFeature::WorkerModule`, transformer.rs line 78). -/
inductive EnvironmentFeature
  | workerModule
deriving DecidableEq

/-- Modelled from the spec: the target engines' feature matrix; the source
only asks whether worker modules are supported. -/
structure Engines where
  worker_module : Bool
deriving DecidableEq

/-- Mirror of `env.engines.supports(EnvironmentFeature::WorkerModule)`. -/
def Engines.supports (e : Engines) : EnvironmentFeature → Bool
  | .workerModule => e.worker_module

/-- The build-environment descriptor (parcel_core `Environment`), restricted
to the fields the source file reads. -/
structure Environment where
  context : EnvContext
  source_type : SourceType
  output_format : OutputFormat
  is_library : Bool
  should_scope_hoist : Bool
  source_map : Option Unit
  engines : Engines
deriving DecidableEq

/-- Default build environment, as `Environment::default()` used through
`Asset::default()`. -/
def Environment.default : Environment :=
  { context := .browser
    source_type := .module
    output_format := .global
    is_library := false
    should_scope_hoist := false
    source_map := none
    engines := { worker_module := false } }

/-- One source file's contribution to the module graph (parcel_core
`Asset`), restricted to the fields the source file reads and the tests
compare.  Source bytes are modelled as text. -/
structure Asset where
  file_path : OsStr
  asset_type : FileType
  code : String
  env : Environment
  symbols : List Symbol
  has_symbols : Bool
  unique_key : Option String
deriving DecidableEq

/-- `Asset::default()` as used at transformer.rs line 103. -/
def Asset.default : Asset :=
  { file_path := .utf8 ""
    asset_type := .other
    code := ""
    env := Environment.default
    symbols := []
    has_symbols := false
    unique_key := none }

/-- A directed reference from one Asset to another module (parcel_core
`Dependency`), restricted to the fields the tests compare.  `kind` is the
secondary classification set via `set_kind` (e.g. "Require"). -/
structure Dependency where
  specifier : String
  specifier_type : SpecifierType
  placeholder : Option String
  source_asset_id : Option String
  source_path : Option String
  loc : Option SourceLocation
  symbols : List Symbol
  kind : String
deriving DecidableEq

/-- The transformer's successful output (parcel_core `TransformResult`). -/
structure TransformResult where
  asset : Asset
  dependencies : List Dependency
  invalidate_on_file_change : List String
deriving DecidableEq

/-- The engine-side source-type tag (`parcel_js_swc_core::SourceType`),
produced by the match at transformer.rs lines 73-76. -/
inductive SwcSourceType
  | module
  | script
deriving DecidableEq

/-- The flat configuration consumed by the external engine
(`parcel_js_swc_core::Config`), restricted to the fields the source file
sets at transformer.rs lines 46-81.  Source bytes are modelled as text. -/
structure Config where
  code : String
  env : List (String × String)
  filename : String
  insert_node_globals : Bool
  is_browser : Bool
  is_development : Bool
  is_esm_output : Bool
  is_library : Bool
  is_worker : Bool
  node_replacer : Bool
  project_root : String
  replace_env : Bool
  scope_hoist : Bool
  source_maps : Bool
  source_type : SwcSourceType
  supports_module_workers : Bool
  trace_bailouts : Bool
deriving DecidableEq

/-- `parcel_js_swc_core::Config::default()`: every field takes its Rust
`Default` value (empty collections and strings, `false` flags). -/
def Config.default : Config :=
  { code := ""
    env := []
    filename := ""
    insert_node_globals := false
    is_browser := false
    is_development := false
    is_esm_output := false
    is_library := false
    is_worker := false
    node_replacer := false
    project_root := ""
    replace_env := false
    scope_hoist := false
    source_maps := false
    source_type := .module
    supports_module_workers := false
    trace_bailouts := false }

/-- Global build options (parcel_core `ParcelOptions`), restricted to the
fields the source file reads (lines 49-55, 64, 79). -/
structure ParcelOptions where
  env : Option (List (String × String))
  mode : BuildMode
  log_level : LogLevel
deriving DecidableEq

/-- `ParcelOptions::default()` as used by the tests (line 288). -/
def ParcelOptions.default : ParcelOptions :=
  { env := none, mode := .production, log_level := .info }

/-- The per-invocation context handed to the transformer
(`RunTransformContext`), restricted to the fields the source file reads. -/
structure RunTransformContext where
  options : ParcelOptions
  project_root : String
deriving DecidableEq

/-- A diagnostic descriptor returned by the engine.  The spec treats
diagnostics as an opaque payload passed through verbatim, so it is modelled
as its display text. -/
abbrev Diagnostic := String

/-- Modelled from the spec: a raw dependency descriptor emitted by the
engine ("dependency descriptors" of the engine response), carrying the
fields Result Conversion binds onto the graph-level `Dependency`. -/
structure RawDependency where
  specifier : String
  specifier_type : SpecifierType
  placeholder : Option String
  loc : Option SourceLocation
  symbols : List Symbol
  kind : String
deriving DecidableEq

/-- Modelled from the spec: the external engine's response — "either
(rewritten bytes, symbol descriptors, dependency descriptors, optional
source map) or a non-empty diagnostics list".  The source file only
inspects `diagnostics` directly (lines 86-88); the rest flows into
Result Conversion. -/
structure EngineOutput where
  diagnostics : Option (List Diagnostic)
  code : String
  symbols : List Symbol
  dependencies : List RawDependency
deriving DecidableEq

/-- The three distinct failures the transformer constructs: the invalid
path error (line 60), the diagnostics error carrying the engine's
diagnostic list (line 87), and the fixed conversion failure (line 110). -/
inductive TransformError
  | invalidPath
  | engineDiagnostics (diagnostics : List Diagnostic)
  | conversionError
deriving DecidableEq

/-- Lower-case hexadecimal digit for a value below 16. -/
def hexDigit (n : Nat) : Char :=
  if n < 10 then Char.ofNat (48 + n) else Char.ofNat (87 + n)

/-- The last `k` hexadecimal digits of `v`, most significant first. -/
def toHexDigits : Nat → Nat → List Char
  | 0, _ => []
  | k + 1, v => toHexDigits k (v / 16) ++ [hexDigit (v % 16)]

/-- Zero-padded 16-digit lower-case hexadecimal rendering of a 64-bit
value, as Rust's format string `{:016x}` used at transformer.rs lines
181, 219, 272, 277. -/
def toHex16 (v : Nat) : String :=
  String.mk (toHexDigits 16 v)

/-- 64-bit FNV-1a accumulation over a list of characters. -/
def fnv1a (acc : Nat) : List Char → Nat
  | [] => acc
  | c :: rest => fnv1a (((acc ^^^ c.toNat) * 1099511628211) % 2 ^ 64) rest

/-- Modelled from the spec: the Identity Hasher (§4.4) — `Asset::id` lives
in `parcel_core`, outside the visible source; the spec requires only a
pure, deterministic, collision-resistant 64-bit function of
(`file_path` as text, `code` bytes), realized here as FNV-1a-64. -/
def assetId (file_path : String) (code : String) : Nat :=
  fnv1a (fnv1a 14695981039346656037 file_path.data) code.data % 2 ^ 64

/-- Mirror of `Asset::id()`: the Identity Hasher applied to the asset's own
path and code. -/
def Asset.id (a : Asset) : Nat :=
  assetId a.file_path.text a.code

/-- Number of (possibly overlapping) positions at which `tok` occurs as a
contiguous block of `code`. -/
def countOcc : List Char → List Char → Nat
  | [], _ => 0
  | c :: rest, tok =>
    (if tok.isPrefixOf (c :: rest) then 1 else 0) + countOcc rest tok

/-- Occurrence count of a token inside a code string. -/
def countOccS (code tok : String) : Nat :=
  countOcc code.data tok.data

/-- The characters after the last dot of a character list, when a dot is
present. -/
def extAfterDot : List Char → Option (List Char)
  | [] => none
  | c :: rest =>
    match extAfterDot rest with
    | some e => some e
    | none => if c = '.' then some rest else none

/-- Mirror of `file_path.extension().and_then(|s| s.to_str()).unwrap_or_default()`
(transformer.rs lines 91-96): the text after the path's last dot, or the
empty string. -/
def extensionOf : OsStr → String
  | .utf8 s =>
    match extAfterDot s.data with
    | some e => String.mk e
    | none => ""
  | .nonUtf8 => ""

/-- Modelled from the spec: the closed extension → type mapping of Result
Conversion step 1 ("unknown extensions map to a generic/binary default,
never an error"); only the `js` entry is exercised by the source file. -/
def FileType.from_extension (ext : String) : FileType :=
  if ext = "js" then .js else .other

/-- The engine configuration built at transformer.rs lines 46-81, field by
field. -/
def buildConfig (env : Environment) (options : ParcelOptions)
    (project_root : String) (source_code : String) (filename : String) :
    Config :=
  let is_node := env.context.is_node
  { code := source_code
    env := options.env.getD []
    filename := filename
    insert_node_globals := !is_node && decide (env.source_type ≠ .script)
    is_browser := env.context.is_browser
    is_development := decide (options.mode = .development)
    is_esm_output := decide (env.output_format = .esmodule)
    is_library := env.is_library
    is_worker := env.context.is_worker
    node_replacer := is_node
    project_root := project_root
    replace_env := !is_node
    scope_hoist := env.should_scope_hoist && decide (env.source_type ≠ .script)
    source_maps := env.source_map.isSome
    source_type :=
      match env.source_type with
      | .module => .module
      | .script => .script
    supports_module_workers :=
      env.should_scope_hoist && env.engines.supports .workerModule
    trace_bailouts := decide (options.log_level = .verbose) }

/-- The configuration handed to Result Conversion: transformer.rs line 106
constructs a fresh `parcel_js_swc_core::Config::default()` there. -/
def conversionConfig : Config :=
  Config.default

/-- Modelled from the spec: whether one raw dependency descriptor's
placeholder is well-formed against the rewritten code — a set, non-empty
placeholder token must occur exactly once in `code` (§3 Dependency
invariant; §4.3 step 4 and error conditions). -/
def placeholderOk (code : String) (raw : RawDependency) : Bool :=
  match raw.placeholder with
  | some p => decide (p = "") || decide (countOccS code p = 1)
  | none => true

/-- Modelled from the spec: no two raw dependency descriptors of one asset
may carry the same non-empty placeholder token ("placeholders are unique
per Asset", §3). -/
def noSharedPlaceholder : List RawDependency → Bool
  | [] => true
  | d :: rest =>
    (match d.placeholder with
     | some p =>
       decide (p = "") || rest.all fun e => decide (e.placeholder ≠ some p)
     | none => true) && noSharedPlaceholder rest

/-- Modelled from the spec: the structural well-formedness check Result
Conversion applies to the raw dependency descriptors before producing any
output. -/
def validPlaceholders (code : String) (deps : List RawDependency) : Bool :=
  deps.all (placeholderOk code) && noSharedPlaceholder deps

/-- Modelled from the spec: the single failure kind of Result Conversion —
a structurally malformed raw descriptor (§4.3 error conditions). -/
inductive ConvError
  | malformedDescriptor
deriving DecidableEq

/-- Modelled from the spec: Dependency derivation (§4.3 step 3) — bind the
owning Asset's id as `source_asset_id` and path as `source_path`,
preserving the engine's specifier, classification, placeholder, location
and symbols. -/
def mkDependency (asset : Asset) (raw : RawDependency) : Dependency :=
  { specifier := raw.specifier
    specifier_type := raw.specifier_type
    placeholder := raw.placeholder
    source_asset_id := some (toHex16 asset.id)
    source_path := some asset.file_path.text
    loc := raw.loc
    symbols := raw.symbols
    kind := raw.kind }

/-- Modelled from the spec: `conversion::convert_result` (the `conversion`
module is not under the visible source).  Given the shaped Asset, the
configuration, the raw engine output and the global options, it validates
the placeholder invariant and produces the final Asset (rewritten code,
engine symbols, `has_symbols` set, `unique_key` set to the hex id) with
its ordered Dependency list, or fails on a malformed descriptor. -/
def convert_result (asset : Asset) (_config : Config) (result : EngineOutput)
    (_options : ParcelOptions) : Except ConvError TransformResult :=
  if validPlaceholders result.code result.dependencies then
    .ok
      { asset :=
          { asset with
            code := result.code
            symbols := result.symbols
            has_symbols := true
            unique_key := some (toHex16 asset.id) }
        dependencies := result.dependencies.map (mkDependency asset)
        invalidate_on_file_change := [] }
  else
    .error .malformedDescriptor

/-- The configuration the transformer hands to the engine for a given
context and input, with the already-decoded filename (transformer.rs
lines 46-81). -/
def builtConfig (ctx : RunTransformContext) (input : Asset)
    (filename : String) : Config :=
  buildConfig input.env ctx.options ctx.project_root input.code filename

/-- The Asset record built at transformer.rs lines 90-104: asset type from
the file extension, original code, environment and path preserved,
everything else defaulted. -/
def shapedAsset (input : Asset) : Asset :=
  { Asset.default with
    asset_type := FileType.from_extension (extensionOf input.file_path)
    code := input.code
    env := input.env
    file_path := input.file_path }

/-- `ParcelJsTransformerPlugin::transform` (transformer.rs lines 35-113),
parameterized by the external engine as a pure function.  The input is the
`TransformationInput::Asset` case exercised by the source file, whose
`read_code` returns the asset's own code.  Control flow in source order:
path decoding (line 57-60) fails with the invalid-path error before the
engine is invoked; any present diagnostics list aborts with the
diagnostics error (lines 86-88); otherwise Result Conversion runs on the
shaped asset, a fresh default config (line 106) and the raw engine
output, its failure collapsed to the fixed conversion error (line 110). -/
def transform (engine : Config → EngineOutput) (ctx : RunTransformContext)
    (input : Asset) : Except TransformError TransformResult :=
  match OsStr.toStr input.file_path with
  | none => .error .invalidPath
  | some filename =>
    match (engine (builtConfig ctx input filename)).diagnostics with
    | some errors => .error (.engineDiagnostics errors)
    | none =>
      match convert_result (shapedAsset input) conversionConfig
          (engine (builtConfig ctx input filename)) ctx.options with
      | .error _ => .error .conversionError
      | .ok result => .ok result

/-- The per-invocation context used by the source file's `run_test` helper
(transformer.rs lines 286-294): default options, empty project root. -/
def runTestContext : RunTransformContext :=
  { options := ParcelOptions.default, project_root := "" }

/-- Claim C3: for every build environment, the configuration handed to the
engine satisfies exactly the spec's derivations: `insert_node_globals` =
(context is not node) AND (source type is Module); `replace_env` =
(context is not node); `scope_hoist` = (scope-hoisting enabled) AND
(source type is Module); `supports_module_workers` = (scope-hoisting
enabled) AND (engine feature matrix supports worker modules);
`source_maps` = (the environment requests a source map). -/
theorem config_derivations (env : Environment) (options : ParcelOptions)
    (project_root source_code filename : String) :
    (buildConfig env options project_root source_code filename).insert_node_globals
        = (!env.context.is_node && decide (env.source_type = .module)) ∧
      (buildConfig env options project_root source_code filename).replace_env
        = !env.context.is_node ∧
      (buildConfig env options project_root source_code filename).scope_hoist
        = (env.should_scope_hoist && decide (env.source_type = .module)) ∧
      (buildConfig env options project_root source_code filename).supports_module_workers
        = (env.should_scope_hoist && env.engines.supports .workerModule) ∧
      (buildConfig env options project_root source_code filename).source_maps
        = env.source_map.isSome := by
  obtain ⟨c, st, of, lib, sh, sm, eng⟩ := env
  cases st <;> simp [buildConfig]

/-- Claim C8: for every input whose file path is not representable as
valid text, the transform fails with the invalid-path error; the result
holds for every engine, so the failure occurs before (and independently
of) the external engine. -/
theorem invalid_path_fails_before_engine (engine : Config → EngineOutput)
    (ctx : RunTransformContext) (input : Asset)
    (hpath : input.file_path = .nonUtf8) :
    transform engine ctx input = .error .invalidPath := by
  unfold transform
  rw [hpath]
  rfl

def c8Input : Asset :=
  { Asset.default with file_path := .nonUtf8, code := "function hello() \x7b\x7d" }

def c8Engine : Config → EngineOutput := fun _ =>
  { diagnostics := none, code := "", symbols := [], dependencies := [] }

theorem invalid_path_fails_before_engine_witness :
    transform c8Engine runTestContext c8Input = .error .invalidPath :=
  invalid_path_fails_before_engine c8Engine runTestContext c8Input rfl

/-- Claim C1: if the engine's result carries any diagnostic (a non-empty
diagnostics list), the transform fails with the diagnostics error carrying
that list, and no Asset or Dependency is produced (the call never returns
an `ok` payload). -/
theorem diagnostics_short_circuit (engine : Config → EngineOutput)
    (ctx : RunTransformContext) (input : Asset) (s : String)
    (l : List Diagnostic)
    (hpath : input.file_path = .utf8 s)
    (hdiag : (engine (builtConfig ctx input s)).diagnostics = some l)
    (hne : l ≠ []) :
    transform engine ctx input = .error (.engineDiagnostics l) ∧
      ∀ res, transform engine ctx input ≠ .ok res := by
  have h : transform engine ctx input = .error (.engineDiagnostics l) := by
    unfold transform
    rw [hpath]
    dsimp only [OsStr.toStr]
    rw [hdiag]
  refine ⟨h, fun res hres => ?_⟩
  rw [h] at hres
  exact Except.noConfusion hres

def c1Input : Asset :=
  { Asset.default with file_path := .utf8 "input.js", code := "const ((" }

def c1Engine : Config → EngineOutput := fun _ =>
  { diagnostics := some ["Unexpected token"], code := "", symbols := [],
    dependencies := [] }

theorem diagnostics_short_circuit_witness :
    transform c1Engine runTestContext c1Input
        = .error (.engineDiagnostics ["Unexpected token"]) ∧
      ∀ res, transform c1Engine runTestContext c1Input ≠ .ok res :=
  diagnostics_short_circuit c1Engine runTestContext c1Input "input.js"
    ["Unexpected token"] rfl rfl (by decide)

/-- Claim C10: a present-but-empty diagnostics list still aborts the
transform with the diagnostics error and no Asset or Dependency: the gate
at transformer.rs lines 86-88 tests presence of the field, not
non-emptiness of the list. -/
theorem empty_diagnostics_still_fails (engine : Config → EngineOutput)
    (ctx : RunTransformContext) (input : Asset) (s : String)
    (hpath : input.file_path = .utf8 s)
    (hdiag : (engine (builtConfig ctx input s)).diagnostics = some []) :
    transform engine ctx input = .error (.engineDiagnostics []) ∧
      ∀ res, transform engine ctx input ≠ .ok res := by
  have h : transform engine ctx input = .error (.engineDiagnostics []) := by
    unfold transform
    rw [hpath]
    dsimp only [OsStr.toStr]
    rw [hdiag]
  refine ⟨h, fun res hres => ?_⟩
  rw [h] at hres
  exact Except.noConfusion hres

def c10Input : Asset :=
  { Asset.default with file_path := .utf8 "input.js", code := "let x = 1;" }

def c10Engine : Config → EngineOutput := fun _ =>
  { diagnostics := some [], code := "", symbols := [], dependencies := [] }

theorem empty_diagnostics_still_fails_witness :
    transform c10Engine runTestContext c10Input
        = .error (.engineDiagnostics []) ∧
      ∀ res, transform c10Engine runTestContext c10Input ≠ .ok res :=
  empty_diagnostics_still_fails c10Engine runTestContext c10Input "input.js"
    rfl rfl

/-- Claim C9: when the path decodes and the engine reports no diagnostics
but Result Conversion rejects a structurally malformed raw descriptor, the
transform fails with the conversion error — a fixed value carrying no
source attribution (transformer.rs line 110 discards the inner error and
emits the constant failure) — and that failure is distinguishable by the
caller from every diagnostics failure. -/
theorem conversion_failure_is_distinct (engine : Config → EngineOutput)
    (ctx : RunTransformContext) (input : Asset) (s : String) (e : ConvError)
    (hpath : input.file_path = .utf8 s)
    (hdiag : (engine (builtConfig ctx input s)).diagnostics = none)
    (hconv : convert_result (shapedAsset input) conversionConfig
        (engine (builtConfig ctx input s)) ctx.options = .error e) :
    transform engine ctx input = .error .conversionError ∧
      ∀ ds, (TransformError.conversionError ≠ .engineDiagnostics ds) := by
  constructor
  · unfold transform
    rw [hpath]
    dsimp only [OsStr.toStr]
    rw [hdiag, hconv]
  · exact fun ds h => TransformError.noConfusion h

def c9Input : Asset :=
  { Asset.default with
    file_path := .utf8 "input.js",
    code := "const x = require(" ++ String.singleton (Char.ofNat 39)
      ++ "other" ++ String.singleton (Char.ofNat 39) ++ ");" }

/-- An engine output whose raw dependency descriptor references a
placeholder token that does not appear in the rewritten code — the spec's
own example of a malformed descriptor. -/
def c9Engine : Config → EngineOutput := fun _ =>
  { diagnostics := none
    code := "const x = other;"
    symbols := []
    dependencies :=
      [{ specifier := "other", specifier_type := .commonJS,
         placeholder := some "deadbeef00000000", loc := none, symbols := [],
         kind := "Require" }] }

theorem conversion_failure_is_distinct_witness :
    transform c9Engine runTestContext c9Input = .error .conversionError ∧
      ∀ ds, (TransformError.conversionError ≠ .engineDiagnostics ds) :=
  conversion_failure_is_distinct c9Engine runTestContext c9Input "input.js"
    .malformedDescriptor rfl rfl (by rfl)

/-- Claim C4, amended: for every transform invocation that reaches Result
Conversion, the conversion step is given a freshly-constructed default
configuration — transformer.rs line 106 builds `Config::default()` there —
not the configuration that was built and passed to the engine, together
with the original Asset metadata and the raw engine output. -/
theorem conversion_receives_default_config (engine : Config → EngineOutput)
    (ctx : RunTransformContext) (input : Asset) (s : String)
    (hpath : input.file_path = .utf8 s)
    (hdiag : (engine (builtConfig ctx input s)).diagnostics = none) :
    conversionConfig = Config.default ∧
      transform engine ctx input =
        (match convert_result (shapedAsset input) conversionConfig
            (engine (builtConfig ctx input s)) ctx.options with
         | .error _ => Except.error TransformError.conversionError
         | .ok result => Except.ok result) := by
  refine ⟨rfl, ?_⟩
  unfold transform
  rw [hpath]
  dsimp only [OsStr.toStr]
  rw [hdiag]

def c4Input : Asset :=
  { Asset.default with
    file_path := .utf8 "mock_path.js",
    code := "function hello() \x7b\x7d" }

def c4Engine : Config → EngineOutput := fun _ =>
  { diagnostics := none, code := "function hello() \x7b\x7d\n", symbols := [],
    dependencies := [] }

/-- Claim C4, counterexample: at the concrete input of the source file's
own no-op test, the configuration handed to Result Conversion (the fresh
default of transformer.rs line 106) differs from the configuration that
was built for and passed to the engine, so the conversion step is NOT
given the same configuration object. -/
theorem conversion_config_differs_from_engine_config :
    conversionConfig ≠ builtConfig runTestContext c4Input "mock_path.js" := by
  decide

theorem conversion_receives_default_config_witness :
    conversionConfig = Config.default ∧
      transform c4Engine runTestContext c4Input =
        (match convert_result (shapedAsset c4Input) conversionConfig
            (c4Engine (builtConfig runTestContext c4Input "mock_path.js"))
            runTestContext.options with
         | .error _ => Except.error TransformError.conversionError
         | .ok result => Except.ok result) :=
  conversion_receives_default_config c4Engine runTestContext c4Input
    "mock_path.js" rfl rfl

/-- Claim C5: the Asset id is a pure deterministic function of the pair
(`file_path`, `code`): computing it twice on the same Asset yields the
same value, and any two Assets with identical file path and identical
code are assigned equal ids — there is no other state it could depend
on. -/
theorem asset_id_deterministic (a1 a2 : Asset)
    (hp : a1.file_path = a2.file_path) (hc : a1.code = a2.code) :
    a1.id = a1.id ∧ a1.id = a2.id := by
  refine ⟨rfl, ?_⟩
  unfold Asset.id
  rw [hp, hc]

def c5Asset1 : Asset :=
  { Asset.default with
    file_path := .utf8 "mock_path",
    code := "function hello() \x7b\x7d" }

/-- A second, distinct Asset sharing `c5Asset1`'s path and code but
differing elsewhere. -/
def c5Asset2 : Asset :=
  { Asset.default with
    file_path := .utf8 "mock_path",
    code := "function hello() \x7b\x7d",
    unique_key := some "other-key" }

theorem asset_id_deterministic_witness :
    c5Asset1.id = c5Asset1.id ∧ c5Asset1.id = c5Asset2.id :=
  asset_id_deterministic c5Asset1 c5Asset2 rfl rfl

/-- If every raw descriptor passes the per-descriptor placeholder check,
each set, non-empty placeholder token occurs exactly once in the rewritten
code. -/
theorem all_placeholderOk_spec (code : String) (l : List RawDependency)
    (h : l.all (placeholderOk code) = true) :
    ∀ raw ∈ l, ∀ p, raw.placeholder = some p → p ≠ "" →
      countOccS code p = 1 := by
  intro raw hmem p hp hne
  have hr := List.all_eq_true.mp h raw hmem
  unfold placeholderOk at hr
  rw [hp] at hr
  simp only [Bool.or_eq_true, decide_eq_true_eq] at hr
  exact hr.resolve_left hne

/-- The shared-placeholder check implies pairwise distinctness of the
non-empty placeholder tokens along the raw descriptor list. -/
theorem noSharedPlaceholder_pairwise (l : List RawDependency)
    (h : noSharedPlaceholder l = true) :
    l.Pairwise fun a b => ∀ p, a.placeholder = some p → p ≠ "" →
      b.placeholder ≠ some p := by
  induction l with
  | nil => exact List.Pairwise.nil
  | cons d rest ih =>
    unfold noSharedPlaceholder at h
    rw [Bool.and_eq_true] at h
    refine List.Pairwise.cons ?_ (ih h.2)
    intro e he p hp hne
    have h1 := h.1
    simp only [hp, Bool.or_eq_true, decide_eq_true_eq] at h1
    rcases h1 with h1 | h1
    · exact absurd h1 hne
    · exact of_decide_eq_true (List.all_eq_true.mp h1 e he)

/-- Claim C2: for every successfully converted asset, every output
Dependency whose placeholder is a set, non-empty token has that exact
token occurring exactly once in the final rewritten code, and no two
Dependencies of the same Asset share a placeholder token. -/
theorem placeholder_bijection (asset : Asset) (config : Config)
    (result : EngineOutput) (options : ParcelOptions) (res : TransformResult)
    (h : convert_result asset config result options = .ok res) :
    (∀ d ∈ res.dependencies, ∀ p, d.placeholder = some p → p ≠ "" →
        countOccS res.asset.code p = 1) ∧
      res.dependencies.Pairwise fun d1 d2 => ∀ p,
        d1.placeholder = some p → p ≠ "" → d2.placeholder ≠ some p := by
  unfold convert_result at h
  split at h
  case isTrue hv =>
    rw [Except.ok.injEq] at h
    subst h
    unfold validPlaceholders at hv
    rw [Bool.and_eq_true] at hv
    constructor
    · intro d hd p hp hne
      dsimp only at hd ⊢
      rw [List.mem_map] at hd
      obtain ⟨raw, hraw, hdeq⟩ := hd
      subst hdeq
      exact all_placeholderOk_spec _ _ hv.1 raw hraw p hp hne
    · dsimp only
      rw [List.pairwise_map]
      refine List.Pairwise.imp ?_ (noSharedPlaceholder_pairwise _ hv.2)
      intro a b hab p hp hne
      exact hab p hp hne
  case isFalse hv => exact Except.noConfusion h

def c2Asset : Asset :=
  { Asset.default with
    file_path := .utf8 "dep.js",
    code := "const x = require(" ++ String.singleton (Char.ofNat 39)
      ++ "other" ++ String.singleton (Char.ofNat 39) ++ ");" }

def c2Raw : RawDependency :=
  { specifier := "other", specifier_type := .commonJS,
    placeholder := some "abcd1234abcd1234", loc := none, symbols := [],
    kind := "Require" }

def c2Out : EngineOutput :=
  { diagnostics := none, code := "const x = require(\"abcd1234abcd1234\");",
    symbols := [], dependencies := [c2Raw] }

def c2Res : TransformResult :=
  { asset :=
      { c2Asset with
        code := c2Out.code,
        symbols := [],
        has_symbols := true,
        unique_key := some (toHex16 c2Asset.id) }
    dependencies := [mkDependency c2Asset c2Raw]
    invalidate_on_file_change := [] }

theorem placeholder_bijection_witness :
    (∀ d ∈ c2Res.dependencies, ∀ p, d.placeholder = some p → p ≠ "" →
        countOccS c2Res.asset.code p = 1) ∧
      c2Res.dependencies.Pairwise fun d1 d2 => ∀ p,
        d1.placeholder = some p → p ≠ "" → d2.placeholder ≠ some p :=
  placeholder_bijection c2Asset Config.default c2Out ParcelOptions.default
    c2Res (by rfl)

/-- The no-op test input source, `function hello() {}` (transformer.rs
line 162). -/
def noopSource : String := "function hello() \x7b\x7d"

def noopInput : Asset :=
  { Asset.default with file_path := .utf8 "mock_path.js", code := noopSource }

/-- Modelled from the spec: the engine's output on the no-op source — the
engine itself is an external collaborator, and the repository's own test
`test_transformer_on_noop_asset` (transformer.rs lines 160-188) pins it:
no diagnostics, no descriptors, and the code rewritten only by a trailing
newline ("SWC inserts a newline here"). -/
def noopEngineOutput : EngineOutput :=
  { diagnostics := none, code := "function hello() \x7b\x7d\n", symbols := [],
    dependencies := [] }

def noopEngine : Config → EngineOutput := fun _ => noopEngineOutput

/-- The transform result the no-op test expects (transformer.rs lines
171-187). -/
def noopExpected : TransformResult :=
  { asset :=
      { file_path := .utf8 "mock_path.js"
        asset_type := .js
        code := "function hello() \x7b\x7d\n"
        env := Environment.default
        symbols := []
        has_symbols := true
        unique_key := some (toHex16 noopInput.id) }
    dependencies := []
    invalidate_on_file_change := [] }

/-- Claim C7: on the input source `function hello() {}` the transform
succeeds with zero Dependencies, an empty Symbol list, `has_symbols`
true, and rewritten code whose content is the input preserved up to the
formatting newline the engine appends. -/
theorem noop_scenario :
    transform noopEngine runTestContext noopInput = .ok noopExpected ∧
      noopExpected.dependencies = [] ∧
      noopExpected.asset.symbols = [] ∧
      noopExpected.asset.has_symbols = true ∧
      noopExpected.asset.code = noopSource ++ "\n" := by
  exact ⟨by rfl, rfl, rfl, rfl, by decide⟩

/-- The require-test input source (transformer.rs lines 192-197, a raw
string whose content is framed by a leading newline and trailing
indentation). -/
def requireSource : String :=
  "\nconst x = require(" ++ String.singleton (Char.ofNat 39) ++ "other"
    ++ String.singleton (Char.ofNat 39)
    ++ ");\nexports.hello = function() \x7b\x7d;\n    "

def requireInput : Asset :=
  { Asset.default with file_path := .utf8 "mock_path.js", code := requireSource }

/-- The placeholder token the require test pins (transformer.rs line 218). -/
def requirePlaceholder : String := "e83f3db3d6f57ea6"

/-- The rewritten code the require test pins (transformer.rs lines
242-244): the quoted specifier is replaced by the placeholder token. -/
def requireRewritten : String :=
  "const x = require(\"e83f3db3d6f57ea6\");\nexports.hello = function() \x7b\x7d;\n"

/-- Modelled from the spec: the engine's raw dependency descriptor for the
`require('other')` call, as pinned by `test_transformer_on_asset_that_requires_other`
(transformer.rs lines 206-233): a CommonJS/"Require" reference to
"other", rewritten to the placeholder, importing the whole namespace. -/
def requireRawDependency : RawDependency :=
  { specifier := "other"
    specifier_type := .commonJS
    placeholder := some requirePlaceholder
    loc := some
      { file_path := "mock_path.js"
        start := { line := 2, column := 19 }
        end_pos := { line := 2, column := 26 } }
    symbols := [{ exported := "*", local_name := "$other$", loc := none }]
    kind := "Require" }

/-- Modelled from the spec: the engine's output on the require source —
the engine is external, and the repository's test (transformer.rs lines
235-283) pins its effect: the rewritten code, the dependency descriptor,
the exported `hello` binding, the CommonJS star export, and the
namespace/export-object Symbol named from the Asset's id. -/
def requireEngineOutput : EngineOutput :=
  { diagnostics := none
    code := requireRewritten
    symbols :=
      [ { exported := "hello"
          local_name := "$hello"
          loc := some
            { file_path := "mock_path.js"
              start := { line := 3, column := 9 }
              end_pos := { line := 3, column := 14 } } }
      , { exported := "*"
          local_name := "$_"
          loc := some
            { file_path := "mock_path.js"
              start := { line := 1, column := 1 }
              end_pos := { line := 1, column := 1 } } }
      , { exported := "*"
          local_name := "$" ++ toHex16 requireInput.id ++ "$exports"
          loc := none } ]
    dependencies := [requireRawDependency] }

def requireEngine : Config → EngineOutput := fun _ => requireEngineOutput

/-- The transform result the require test expects (transformer.rs lines
235-283). -/
def requireExpected : TransformResult :=
  { asset :=
      { file_path := .utf8 "mock_path.js"
        asset_type := .js
        code := requireRewritten
        env := Environment.default
        symbols := requireEngineOutput.symbols
        has_symbols := true
        unique_key := some (toHex16 requireInput.id) }
    dependencies := [mkDependency (shapedAsset requireInput) requireRawDependency]
    invalidate_on_file_change := [] }

set_option maxRecDepth 100000 in
/-- Claim C6: on the source containing `const x = require('other');
exports.hello = function(){};` the transform succeeds with exactly one
Dependency — specifier "other", CommonJS, carrying the non-empty
placeholder token — the Asset's Symbol list contains an exported binding
named `hello` plus a synthesized namespace/export-object Symbol named
deterministically from the Asset's id, and the rewritten code contains
the placeholder token exactly once with the quoted literal specifier
gone. -/
theorem require_other_scenario :
    transform requireEngine runTestContext requireInput = .ok requireExpected ∧
      requireExpected.dependencies.length = 1 ∧
      (∀ d ∈ requireExpected.dependencies,
        d.specifier = "other" ∧ d.specifier_type = .commonJS ∧
          d.placeholder = some requirePlaceholder) ∧
      requirePlaceholder ≠ "" ∧
      (∃ sym ∈ requireExpected.asset.symbols, sym.exported = "hello") ∧
      (∃ sym ∈ requireExpected.asset.symbols, sym.exported = "*" ∧
        sym.local_name = "$" ++ toHex16 requireInput.id ++ "$exports") ∧
      countOccS requireExpected.asset.code requirePlaceholder = 1 ∧
      countOccS requireExpected.asset.code
        (String.singleton (Char.ofNat 39) ++ "other"
          ++ String.singleton (Char.ofNat 39)) = 0 := by
  exact ⟨by rfl, by decide⟩

end Parcel
